import Mathlib

/-!
# Verification of the GreenKarma odometer-reward service

Shallow embedding of the server-side logic of the repository
(`src/server/routes.ts`, `src/server/storage.ts`,
`src/server/blockchain/publicChain.ts`, `src/shared/schema.ts`).

Modelling conventions:
* JavaScript numbers used for money / CO₂ / fraud scores are modelled as `ℚ`
  (the claims are about the arithmetic formulas, not IEEE-754 rounding);
  `km` is an `integer` column in the schema and is modelled as `Int`.
* Timestamps (`Date`) are modelled as `Int` (epoch order).
* SHA-256 digests are modelled as the injective tuple of the hashed data
  (a collision-free model of the hash).
* The local per-vehicle blockchain engine (`./blockchain`, imported by
  `storage.ts`) is not part of the sources; where a handler calls it, its
  verdict is taken as an explicit function parameter, and where a claim is
  about the engine itself it is modelled from the spec (marked below).
-/

namespace GreenKarma

/-- A user row (`src/shared/schema.ts`, table `users`). -/
structure User where
  id : Nat
  name : String
  phone : String
  vehicleNumber : String
  rcImageUrl : Option String
  registeredAt : Int
  deriving Repr, DecidableEq

/-- A reward row (`src/shared/schema.ts`, table `rewards`).  Pass-through
metadata columns not read by any handler under verification
(`location`, `ocrConfidence`, `validationStatus`) are omitted. -/
structure Reward where
  id : Nat
  vehicleNumber : String
  odometerImageUrl : String
  km : Int
  co2Saved : ℚ
  rewardGiven : ℚ
  txHash : Option String
  blockHash : Option String
  deviceFingerprint : Option String
  imageHash : Option String
  fraudScore : ℚ
  timestamp : Int
  deriving Repr, DecidableEq

/-- Function `createReadingHash` (`publicChain.ts` lines 61-69) digests the string
`vehicleNumber-reading-timestampISO-appSignature` with SHA-256; modelled as
the injective tuple of those four components. -/
structure ReadingHash where
  vehicleNumber : String
  reading : Int
  timestamp : Int
  appSignature : String
  deriving Repr, DecidableEq

def createReadingHash (v : String) (reading timestamp : Int) (sig : String) :
    ReadingHash :=
  { vehicleNumber := v, reading := reading, timestamp := timestamp,
    appSignature := sig }

/-- A row of the `global_fraud_database` table (`src/shared/schema.ts`);
`readingHash` is the `app_signature` column, which
`DatabaseStorage.storeGlobalFraudEntry` fills with the reading hash. -/
structure GlobalFraudEntry where
  vehicleNumber : String
  reading : Int
  appSource : String
  blockchainTxHash : String
  timestamp : Int
  readingHash : ReadingHash
  deriving Repr, DecidableEq

/-- Method `DatabaseStorage.getGlobalFraudEntry` (`storage.ts` lines 371-377):
select the first row whose `app_signature` equals the reading hash. -/
def getGlobalFraudEntry (db : List GlobalFraudEntry) (h : ReadingHash) :
    Option GlobalFraudEntry :=
  db.find? (fun e => e.readingHash == h)

/-- Result of `checkExistingReading` / `simulateBlockchainQuery`
(`publicChain.ts` lines 72-85 and 132-153). -/
structure ExistCheck where
  exists_ : Bool
  appSource : Option String
  timestamp : Option Int
  deriving Repr, DecidableEq

/-- Composition of `checkExistingReading` with `simulateBlockchainQuery`
(`publicChain.ts` lines 72-85, 132-153).  The argument is the outcome of the
storage lookup, which may fail (`Except.error` models a thrown storage
error); the `catch` branch of `checkExistingReading` returns
`{ exists: false }`. -/
def checkExistingReading (lookup : Except String (Option GlobalFraudEntry)) :
    ExistCheck :=
  match lookup with
  | Except.error _ => { exists_ := false, appSource := none, timestamp := none }
  | Except.ok none => { exists_ := false, appSource := none, timestamp := none }
  | Except.ok (some e) =>
      { exists_ := true, appSource := some e.appSource,
        timestamp := some e.timestamp }

/-- Result of `PublicBlockchainRegistry.registerReading`. -/
structure RegisterResult where
  success : Bool
  txHash : Option String
  error : Option String
  deriving Repr, DecidableEq

/-- The demo transaction hash minted by `submitToBlockchain`
(`publicChain.ts` lines 88-105); its exact value is an opaque digest, so it
is modelled as a deterministic rendering of the submitted data. -/
def mkTxHash (v : String) (reading timestamp : Int) : String :=
  "0x" ++ v ++ "-" ++ toString reading ++ "-" ++ toString timestamp

/-- The row written by `storeInGlobalDatabase` (`publicChain.ts` lines
108-129): `appSource` is hard-coded to `GreenKarma`. -/
def mkGlobalEntry (v : String) (reading timestamp : Int) (sig : String) :
    GlobalFraudEntry :=
  { vehicleNumber := v, reading := reading, appSource := "GreenKarma",
    blockchainTxHash := mkTxHash v reading timestamp, timestamp := timestamp,
    readingHash := createReadingHash v reading timestamp sig }

/-- Method `PublicBlockchainRegistry.registerReading` (`publicChain.ts` lines
18-58): hash the reading, consult the dedup oracle, and either fail naming
the prior claimant or submit and record the reading in the global fraud
database.  `q` is the storage lookup used by `simulateBlockchainQuery`
(possibly failing); `db` is the global fraud database state that
`storeInGlobalDatabase` appends to. -/
def registerReading (q : ReadingHash → Except String (Option GlobalFraudEntry))
    (db : List GlobalFraudEntry) (v : String) (reading timestamp : Int)
    (sig : String) : RegisterResult × List GlobalFraudEntry :=
  let h := createReadingHash v reading timestamp sig
  let ex := checkExistingReading (q h)
  if ex.exists_ then
    ({ success := false, txHash := none,
       error := some ("Reading already used by " ++ ex.appSource.getD ""
         ++ " at " ++ (ex.timestamp.map toString).getD "") }, db)
  else
    ({ success := true, txHash := some (mkTxHash v reading timestamp),
       error := none },
     db ++ [mkGlobalEntry v reading timestamp sig])

/-- Verdict of `storage.validateOdometerReading` (`storage.ts` lines
119-131 / 260-290), which delegates to the local blockchain engine
(`./blockchain`, not among the sources); handlers take its behaviour as a
function parameter. -/
structure LocalValidation where
  isValid : Bool
  blockHash : Option String
  fraudAlert : Option String
  deriving Repr, DecidableEq

/-- One step of the stable sort used for reward lists: insert `x` (the
earlier element of the original array) before the run of already-placed
elements with strictly smaller timestamps, keeping ties in original order —
the semantics of JavaScript's stable `Array.sort` with comparator
`(a, b) => b.timestamp - a.timestamp` (descending). -/
def insertByTimestampDesc (x : Reward) : List Reward → List Reward
  | [] => [x]
  | y :: ys =>
      if y.timestamp ≤ x.timestamp then x :: y :: ys
      else y :: insertByTimestampDesc x ys

/-- Stable descending-by-timestamp sort
(`MemStorage.getRewardsByVehicleNumber`, `storage.ts` line 140). -/
def sortByTimestampDesc : List Reward → List Reward
  | [] => []
  | x :: xs => insertByTimestampDesc x (sortByTimestampDesc xs)

/-- Ascending counterpart used by
`DatabaseStorage.getTotalRewardsByVehicleNumber` (`storage.ts` line 340). -/
def insertByTimestampAsc (x : Reward) : List Reward → List Reward
  | [] => [x]
  | y :: ys =>
      if x.timestamp ≤ y.timestamp then x :: y :: ys
      else y :: insertByTimestampAsc x ys

/-- Stable ascending-by-timestamp sort. -/
def sortByTimestampAsc : List Reward → List Reward
  | [] => []
  | x :: xs => insertByTimestampAsc x (sortByTimestampAsc xs)

/-- Method `MemStorage.getRewardsByVehicleNumber` (`storage.ts` lines 137-141):
filter by vehicle, newest first. -/
def rewardsByVehicleDesc (rewards : List Reward) (v : String) : List Reward :=
  sortByTimestampDesc (rewards.filter (fun r => r.vehicleNumber == v))

/-- Method `getLastRewardByVehicleNumber` (`storage.ts` lines 143-146; the
`DatabaseStorage` variant at lines 300-308 — order by timestamp descending,
limit 1 — has the same semantics). -/
def getLastRewardByVehicleNumber (rewards : List Reward) (v : String) :
    Option Reward :=
  (rewardsByVehicleDesc rewards v).head?

/-- Return value of `getTotalRewardsByVehicleNumber`. -/
structure Totals where
  totalBalance : ℚ
  totalCo2Saved : ℚ
  monthlyReward : ℚ
  totalDistance : Int
  deriving Repr, DecidableEq

/-- Method `MemStorage.getTotalRewardsByVehicleNumber` (`storage.ts` lines
163-189).  `monthStart` is the epoch value of the first instant of the
current month (`new Date(year, month, 1)`); the monthly filter keeps rewards
with `timestamp >= thisMonth`.  `totalDistance` is the `km` of the newest
reward (`rewards[0]`), or 0 if there is none. -/
def memGetTotalRewards (rewards : List Reward) (v : String)
    (monthStart : Int) : Totals :=
  let rs := rewardsByVehicleDesc rewards v
  { totalBalance := (rs.map (fun r => r.rewardGiven)).sum
    totalCo2Saved := (rs.map (fun r => r.co2Saved)).sum
    monthlyReward :=
      ((rs.filter (fun r => monthStart ≤ r.timestamp)).map
        (fun r => r.rewardGiven)).sum
    totalDistance :=
      match rs.head? with
      | some r => r.km
      | none => 0 }

/-- The distance loop of `DatabaseStorage.getTotalRewardsByVehicleNumber`
(`storage.ts` lines 341-348): sum of `currentKm - prevKm` over consecutive
pairs where `currentKm > prevKm`. -/
def posIncrements : List Reward → Int
  | a :: b :: rest =>
      (if a.km < b.km then b.km - a.km else 0) + posIncrements (b :: rest)
  | _ => 0

/-- Method `DatabaseStorage.getTotalRewardsByVehicleNumber` (`storage.ts` lines
318-351).  The rewards come back from the database unsorted; the monthly
filter tests `getMonth()/getFullYear()` equality with the current date,
modelled by the predicate `inCurrentMonth` on timestamps; the distance is the
sum of positive consecutive increments after sorting by timestamp
ascending. -/
def dbGetTotalRewards (rewards : List Reward) (v : String)
    (inCurrentMonth : Int → Bool) : Totals :=
  let rs := rewards.filter (fun r => r.vehicleNumber == v)
  { totalBalance := (rs.map (fun r => r.rewardGiven)).sum
    totalCo2Saved := (rs.map (fun r => r.co2Saved)).sum
    monthlyReward :=
      ((rs.filter (fun r => inCurrentMonth r.timestamp)).map
        (fun r => r.rewardGiven)).sum
    totalDistance := posIncrements (sortByTimestampAsc rs) }

/-! ## The per-vehicle fraud-validation chain

Modelled from the spec: the local blockchain engine (`./blockchain`,
imported by `storage.ts` as `blockchainRegistry`) is not among the source
files — only its callers and its database snapshot table
(`blockchain_registry` in `src/shared/schema.ts`) are.  `Block`,
`VehicleChain`, the fraud heuristics, `addReading` and `verifyIntegrity`
below follow spec §3, §4.2 and §4.3. -/

/-- Modelled from the spec: a block digest (§3 `Block.hash`: "digest over
all of the above fields").  SHA-256 is modelled injectively: `digest` keeps
the hashed fields themselves, and `zero` is the 64-zero-hex
previous-hash of a genesis block. -/
inductive Hash where
  | zero : Hash
  | digest (index : Nat) (previousHash : Hash) (timestamp : Int)
      (odometerKm : Int) (imageFingerprint : String) (location : String)
      (deviceFingerprint : String) (fraudScore : ℚ) : Hash
  deriving Repr, DecidableEq

/-- Modelled from the spec: one ledger entry (§3 `Block`). -/
structure Block where
  index : Nat
  previousHash : Hash
  timestamp : Int
  odometerKm : Int
  imageFingerprint : String
  location : String
  deviceFingerprint : String
  fraudScore : ℚ
  hash : Hash
  deriving Repr, DecidableEq

/-- The digest of a block's non-hash fields (§4.1 `createBlock`: `hash` is
computed deterministically from a canonical serialization of all fields
including `previousHash`). -/
def computeHash (b : Block) : Hash :=
  Hash.digest b.index b.previousHash b.timestamp b.odometerKm
    b.imageFingerprint b.location b.deviceFingerprint b.fraudScore

/-- §4.1 `createBlock`: pure construction, `hash` computed at creation. -/
def mkBlock (index : Nat) (previousHash : Hash) (timestamp : Int)
    (odometerKm : Int) (imageFingerprint location deviceFingerprint : String)
    (fraudScore : ℚ) : Block :=
  { index := index, previousHash := previousHash, timestamp := timestamp,
    odometerKm := odometerKm, imageFingerprint := imageFingerprint,
    location := location, deviceFingerprint := deviceFingerprint,
    fraudScore := fraudScore,
    hash := Hash.digest index previousHash timestamp odometerKm
      imageFingerprint location deviceFingerprint fraudScore }

/-- §4.3 `verifyIntegrity`, own-hash half: independently recompute each
block's `hash` from its stored fields and report every mismatch. -/
def ownErrors (l : List Block) : List String :=
  (l.filter (fun b => b.hash != computeHash b)).map
    (fun b => "block hash mismatch at index " ++ toString b.index)

/-- §4.3 `verifyIntegrity`, linkage half: for each consecutive pair,
re-derive the expected hash of the earlier block and compare it with the
later block's `previousHash`. -/
def linkErrors : List Block → List String
  | a :: b :: rest =>
      (if b.previousHash != computeHash a then
        ["previous hash mismatch at index " ++ toString b.index]
      else []) ++ linkErrors (b :: rest)
  | _ => []

/-- §4.3 `verifyIntegrity() -> {isValid, errors}`: collects every
discrepancy rather than stopping at the first. -/
def verifyIntegrity (l : List Block) : Bool × List String :=
  let errs := ownErrors l ++ linkErrors l
  (errs.isEmpty, errs)

/-- Modelled from the spec: per-vehicle chain state (§3 `VehicleChain`). -/
structure VehicleChain where
  vehicleId : String
  blocks : List Block
  cumulativeFraudScore : ℚ
  isActive : Bool
  lastValidKm : Int
  deriving Repr, DecidableEq

/-- §3 lifecycle / §4.4 `createChain`: a fresh chain is Active with no
blocks; the first accepted reading becomes the genesis block (§4.2: the
genesis reading skips monotonicity and speed checks). -/
def createChain (vehicleId : String) : VehicleChain :=
  { vehicleId := vehicleId, blocks := [], cumulativeFraudScore := 0,
    isActive := true, lastValidKm := 0 }

/-- Modelled from the spec: the configuration surface of §9 (max plausible
speed, suspension threshold, per-check penalty weights are configuration
values without a canonical source value). -/
structure FraudConfig where
  rejectThreshold : ℚ
  suspendThreshold : ℚ
  maxSpeed : ℚ
  hardSpeedCeiling : ℚ
  hardPenalty : ℚ
  devicePenalty : ℚ
  locationPenalty : ℚ
  deriving Repr, DecidableEq

/-- A candidate submission (§6 reading submission input plus its arrival
time). -/
structure Candidate where
  odometerKm : Int
  imageFingerprint : String
  location : String
  deviceFingerprint : String
  timestamp : Int
  deriving Repr, DecidableEq

/-- §4.2 output: `{verdict, score, reasons}`. -/
structure HeuristicsResult where
  verdict : Bool
  score : ℚ
  reasons : List String
  deriving Repr, DecidableEq

/-- §4.2 duplicate-image check: fingerprint already recorded in this
chain. -/
def imageReused (ch : VehicleChain) (c : Candidate) : Bool :=
  ch.blocks.any (fun b => b.imageFingerprint == c.imageFingerprint)

/-- §4.2 impossible-speed check: implied average speed since the last
block; division by a zero elapsed time yields `0` in `ℚ` (treated as no
speed signal). -/
def impliedSpeed (ch : VehicleChain) (c : Candidate) : ℚ :=
  match ch.blocks.getLast? with
  | none => 0
  | some lb =>
      ((c.odometerKm - ch.lastValidKm : Int) : ℚ) /
        ((c.timestamp - lb.timestamp : Int) : ℚ)

/-- Modelled from the spec: §4.2 fraud heuristics.  Hard failures
short-circuit in the listed order (monotonicity, impossible speed, image
reuse, cross-app duplicate); soft penalties (device change, coarse
location, moderate over-speed) accumulate and fail the verdict past
`rejectThreshold`.  `crossDup` is the CrossAppDedupOracle's answer.  The
genesis reading (no prior block) skips the monotonicity and speed checks
and always passes unless the cross-app or image checks fire. -/
def runHeuristics (cfg : FraudConfig) (ch : VehicleChain) (c : Candidate)
    (crossDup : Bool) : HeuristicsResult :=
  if ch.blocks.isEmpty then
    if crossDup then
      { verdict := false, score := cfg.hardPenalty,
        reasons := ["cross-app duplicate"] }
    else
      { verdict := true, score := 0, reasons := [] }
  else if c.odometerKm ≤ ch.lastValidKm then
    { verdict := false, score := cfg.hardPenalty,
      reasons := ["reading not greater than last recorded value"] }
  else if cfg.hardSpeedCeiling < impliedSpeed ch c then
    { verdict := false, score := cfg.hardPenalty,
      reasons := ["impossible speed"] }
  else if imageReused ch c then
    { verdict := false, score := cfg.hardPenalty,
      reasons := ["image reused"] }
  else if crossDup then
    { verdict := false, score := cfg.hardPenalty,
      reasons := ["cross-app duplicate"] }
  else
    let speedPart :=
      if cfg.maxSpeed < impliedSpeed ch c then
        impliedSpeed ch c - cfg.maxSpeed
      else 0
    let devicePart :=
      match ch.blocks.getLast? with
      | some lb =>
          if lb.deviceFingerprint == c.deviceFingerprint then 0
          else cfg.devicePenalty
      | none => 0
    let locationPart := if c.location == "" then cfg.locationPenalty else 0
    let score := speedPart + devicePart + locationPart
    let reasons :=
      (if speedPart ≠ 0 then ["speed above plausible maximum"] else []) ++
      (if devicePart ≠ 0 then ["device changed"] else []) ++
      (if locationPart ≠ 0 then ["low location accuracy"] else [])
    if cfg.rejectThreshold < score then
      { verdict := false, score := score, reasons := reasons }
    else
      { verdict := true, score := score, reasons := reasons }

/-- §4.3 `addReading` result. -/
structure AddReadingResult where
  success : Bool
  block : Option Block
  fraudAlert : Option String
  deriving Repr, DecidableEq

/-- Modelled from the spec: §4.3 `addReading`.  Fails immediately with
"chain suspended" when `isActive` is false; otherwise runs the heuristics:
on rejection it appends no block but still adds the computed score to
`cumulativeFraudScore` and flips `isActive` to false if the running total
crosses `suspendThreshold`; on success it appends a new block (linked to
the stored hash of the last block, `Hash.zero` for the genesis block) and
updates `lastValidKm`. -/
def addReading (cfg : FraudConfig) (ch : VehicleChain) (c : Candidate)
    (crossDup : Bool) : AddReadingResult × VehicleChain :=
  if ch.isActive = false then
    ({ success := false, block := none,
       fraudAlert := some "chain suspended" }, ch)
  else
    let h := runHeuristics cfg ch c crossDup
    if h.verdict then
      let b := mkBlock ch.blocks.length
        ((ch.blocks.getLast?.map (fun lb => lb.hash)).getD Hash.zero)
        c.timestamp c.odometerKm c.imageFingerprint c.location
        c.deviceFingerprint h.score
      ({ success := true, block := some b, fraudAlert := none },
       { ch with blocks := ch.blocks ++ [b],
                 cumulativeFraudScore := ch.cumulativeFraudScore + h.score,
                 lastValidKm := c.odometerKm })
    else
      let newScore := ch.cumulativeFraudScore + h.score
      ({ success := false, block := none,
         fraudAlert := h.reasons.head? },
       { ch with cumulativeFraudScore := newScore,
                 isActive := decide (newScore ≤ cfg.suspendThreshold) })

/-- Chains reachable by the engine's own operations: freshly created, or
the post-state of any `addReading` call. -/
inductive Reachable (cfg : FraudConfig) : VehicleChain → Prop where
  | created (vehicleId : String) : Reachable cfg (createChain vehicleId)
  | step (ch : VehicleChain) (c : Candidate) (crossDup : Bool) :
      Reachable cfg ch → Reachable cfg (addReading cfg ch c crossDup).2

/-! ## The HTTP layer (`src/server/routes.ts`, final revision with the
public-chain fraud check) -/

/-- Server-side state threaded through the handlers: the `users` and
`rewards` tables, the id counters of `MemStorage`, the global fraud
database, and the engine's chain registry (one chain per vehicle, created
by `createUser` via `blockchain.createUserChain`). -/
structure ServerState where
  users : List User
  rewards : List Reward
  nextUserId : Nat
  nextRewardId : Nat
  globalFraudDB : List GlobalFraudEntry
  chains : List VehicleChain
  deriving Repr, DecidableEq

/-- Method `storage.getUserByVehicleNumber` (`storage.ts` lines 93-97 / 228-231). -/
def findUser (st : ServerState) (v : String) : Option User :=
  st.users.find? (fun u => u.vehicleNumber == v)

/-- Response of `POST /api/register`. -/
structure RegisterResponse where
  status : Nat
  message : String
  user : Option User
  deriving Repr, DecidableEq

/-- Handler `POST /api/register` (`routes.ts` lines 398-421) together with
`MemStorage.createUser` (`storage.ts` lines 99-113): reject when a user
with the same vehicle number exists, otherwise create the user row and —
via `blockchain.createUserChain` (engine not among the sources; chain
creation modelled from spec §4.4) — a fresh chain for the vehicle. -/
def registerUser (st : ServerState) (name phone v : String)
    (rcImageUrl : Option String) (now : Int) :
    RegisterResponse × ServerState :=
  match findUser st v with
  | some _ =>
      ({ status := 400, message := "Vehicle number already registered",
         user := none }, st)
  | none =>
      let u : User :=
        { id := st.nextUserId, name := name, phone := phone,
          vehicleNumber := v, rcImageUrl := rcImageUrl, registeredAt := now }
      ({ status := 200, message := "", user := some u },
       { st with users := st.users ++ [u],
                 nextUserId := st.nextUserId + 1,
                 chains := st.chains ++ [createChain v] })

/-- Response of `POST /api/upload-odometer`. -/
structure UploadResponse where
  status : Nat
  message : String
  fraudAlert : Bool
  crossAppDuplicate : Bool
  reward : Option Reward
  deriving Repr, DecidableEq

/-- Handler `POST /api/upload-odometer` (`routes.ts` lines 424-537, the revision
with the public-chain check).  In order: vehicle lookup (404), public-chain
cross-app fraud check via `publicBlockchain.registerReading` (400
"Cross-app fraud detected"), local blockchain validation via
`storage.validateOdometerReading` (400 "Fraud detected"; the engine's
verdict is the parameter `lv`), duplicate-reading monotonicity check against
the last stored reward (400), then reward computation: `kmDiff` is
`km - lastReward.km`, or the default 100 for a first reading;
`co2Saved = kmDiff * 0.12`; `rewardGiven = co2Saved * 2`; the reward row is
persisted with the public-chain transaction hash.  `now` models `new
Date()`. -/
def uploadOdometer (lv : String → Int → LocalValidation) (st : ServerState)
    (v imgUrl : String) (km now : Int) (deviceFp imageHash : String) :
    UploadResponse × ServerState :=
  match findUser st v with
  | none =>
      ({ status := 404, message := "Vehicle not found", fraudAlert := false,
         crossAppDuplicate := false, reward := none }, st)
  | some _ =>
      let pres := registerReading
        (fun h => Except.ok (getGlobalFraudEntry st.globalFraudDB h))
        st.globalFraudDB v km now "GreenKarma-v1.0"
      let st1 := { st with globalFraudDB := pres.2 }
      if pres.1.success = false then
        ({ status := 400,
           message := "Cross-app fraud detected: " ++ pres.1.error.getD "",
           fraudAlert := true, crossAppDuplicate := true, reward := none },
         st1)
      else
        let lres := lv v km
        if lres.isValid = false then
          ({ status := 400,
             message := "Fraud detected: " ++ lres.fraudAlert.getD "",
             fraudAlert := true, crossAppDuplicate := false,
             reward := none }, st1)
        else
          match getLastRewardByVehicleNumber st1.rewards v with
          | some last =>
              if km ≤ last.km then
                ({ status := 400,
                   message :=
                     "Invalid odometer reading. Must be greater than last reading.",
                   fraudAlert := false, crossAppDuplicate := false,
                   reward := none }, st1)
              else
                let co2 : ℚ := ((km - last.km : Int) : ℚ) * (12 / 100)
                let rw : Reward :=
                  { id := st1.nextRewardId,
                    vehicleNumber := v, odometerImageUrl := imgUrl, km := km,
                    co2Saved := co2, rewardGiven := co2 * 2,
                    txHash := pres.1.txHash, blockHash := lres.blockHash,
                    deviceFingerprint := some deviceFp,
                    imageHash := some imageHash, fraudScore := 0,
                    timestamp := now }
                ({ status := 200, message := "", fraudAlert := false,
                   crossAppDuplicate := false, reward := some rw },
                 { st1 with rewards := st1.rewards ++ [rw],
                            nextRewardId := st1.nextRewardId + 1 })
          | none =>
              let co2 : ℚ := ((100 : Int) : ℚ) * (12 / 100)
              let rw : Reward :=
                { id := st1.nextRewardId,
                  vehicleNumber := v, odometerImageUrl := imgUrl, km := km,
                  co2Saved := co2, rewardGiven := co2 * 2,
                  txHash := pres.1.txHash, blockHash := lres.blockHash,
                  deviceFingerprint := some deviceFp,
                  imageHash := some imageHash, fraudScore := 0,
                  timestamp := now }
              ({ status := 200, message := "", fraudAlert := false,
                 crossAppDuplicate := false, reward := some rw },
               { st1 with rewards := st1.rewards ++ [rw],
                          nextRewardId := st1.nextRewardId + 1 })

/-! ## Chain-integrity lemmas -/

/-- Predicate: `b'` differs from `b` in exactly one stored field. -/
def oneFieldChanged (b b' : Block) : Prop :=
  (∃ x, x ≠ b.index ∧ b' = { b with index := x }) ∨
  (∃ x, x ≠ b.previousHash ∧ b' = { b with previousHash := x }) ∨
  (∃ x, x ≠ b.timestamp ∧ b' = { b with timestamp := x }) ∨
  (∃ x, x ≠ b.odometerKm ∧ b' = { b with odometerKm := x }) ∨
  (∃ x, x ≠ b.imageFingerprint ∧ b' = { b with imageFingerprint := x }) ∨
  (∃ x, x ≠ b.location ∧ b' = { b with location := x }) ∨
  (∃ x, x ≠ b.deviceFingerprint ∧ b' = { b with deviceFingerprint := x }) ∨
  (∃ x, x ≠ b.fraudScore ∧ b' = { b with fraudScore := x }) ∨
  (∃ x, x ≠ b.hash ∧ b' = { b with hash := x })

/-- Linkage invariant: each block's `previousHash` is the digest of its
predecessor. -/
def LinksOk : List Block → Prop
  | a :: b :: rest => b.previousHash = computeHash a ∧ LinksOk (b :: rest)
  | _ => True

/-- Well-formedness of a stored chain: every block's stored `hash` is the
digest of its fields, and the linkage invariant holds. -/
def ChainWF (l : List Block) : Prop :=
  (∀ b ∈ l, b.hash = computeHash b) ∧ LinksOk l

theorem linksOk_append_single (l : List Block) (b : Block)
    (hl : LinksOk l)
    (hlast : ∀ lb, l.getLast? = some lb → b.previousHash = computeHash lb) :
    LinksOk (l ++ [b]) := by
  induction l with
  | nil => trivial
  | cons a t ih =>
      cases t with
      | nil =>
          exact ⟨hlast a rfl, trivial⟩
      | cons c r =>
          refine ⟨hl.1, ih hl.2 ?_⟩
          intro lb hlb
          exact hlast lb (by rwa [List.getLast?_cons_cons])

theorem ownErrors_eq_nil (l : List Block)
    (h : ∀ b ∈ l, b.hash = computeHash b) : ownErrors l = [] := by
  unfold ownErrors
  rw [List.filter_eq_nil_iff.mpr]
  · rfl
  · intro b hb
    simp [h b hb]

theorem linkErrors_eq_nil (l : List Block) (h : LinksOk l) :
    linkErrors l = [] := by
  induction l with
  | nil => rfl
  | cons a t ih =>
      cases t with
      | nil => rfl
      | cons c r =>
          unfold linkErrors
          rw [if_neg (by simp [h.1]), List.nil_append]
          exact ih h.2

theorem verifyIntegrity_of_wf (l : List Block) (h : ChainWF l) :
    verifyIntegrity l = (true, []) := by
  unfold verifyIntegrity
  rw [ownErrors_eq_nil l h.1, linkErrors_eq_nil l h.2]
  rfl

/-- Operation `addReading` preserves chain well-formedness. -/
theorem chainWF_addReading (cfg : FraudConfig) (ch : VehicleChain)
    (c : Candidate) (crossDup : Bool) (h : ChainWF ch.blocks) :
    ChainWF (addReading cfg ch c crossDup).2.blocks := by
  unfold addReading
  split
  · exact h
  · dsimp only
    split
    · refine ⟨?_, ?_⟩
      · intro b hb
        rcases List.mem_append.mp hb with hb | hb
        · exact h.1 b hb
        · rw [List.mem_singleton.mp hb]
          rfl
      · refine linksOk_append_single _ _ h.2 ?_
        intro lb hlb
        simp only [mkBlock, hlb, Option.map_some, Option.getD_some]
        exact h.1 lb (List.mem_of_mem_getLast? hlb)
    · exact h

theorem chainWF_created (vehicleId : String) :
    ChainWF (createChain vehicleId).blocks := by
  refine ⟨?_, trivial⟩
  intro b hb
  cases hb

/-- Every chain reachable by the engine's own operations is
well-formed. -/
theorem chainWF_reachable (cfg : FraudConfig) (ch : VehicleChain)
    (h : Reachable cfg ch) : ChainWF ch.blocks := by
  induction h with
  | created vehicleId => exact chainWF_created vehicleId
  | step ch c crossDup _ ih => exact chainWF_addReading cfg ch c crossDup ih

/-- A single-field mutation of a stored block breaks that block's own-hash
check. -/
theorem ownHash_broken_of_oneFieldChanged (b b' : Block)
    (hb : b.hash = computeHash b) (hch : oneFieldChanged b b') :
    b'.hash ≠ computeHash b' := by
  rcases hch with ⟨x, hx, rfl⟩ | ⟨x, hx, rfl⟩ | ⟨x, hx, rfl⟩ | ⟨x, hx, rfl⟩ |
    ⟨x, hx, rfl⟩ | ⟨x, hx, rfl⟩ | ⟨x, hx, rfl⟩ | ⟨x, hx, rfl⟩ | ⟨x, hx, rfl⟩ <;>
    simp only [computeHash] at hb ⊢ <;>
    intro hcon
  case inr.inr.inr.inr.inr.inr.inr.inr.intro.intro =>
    exact hx (hcon.trans hb.symm)
  all_goals {
    have h2 := hb.symm.trans hcon
    simp only [Hash.digest.injEq, and_true, true_and] at h2
    exact hx h2.symm
  }

/-- C4: for every chain built by the engine's own operations,
`verifyIntegrity` returns `isValid = true` on the unmodified chain, and
after mutating any single field of any stored block it returns
`isValid = false` with a non-empty error list; this rests on the invariant
(established by `chainWF_reachable`) that each block's `hash` is a pure
function of its other fields and each block's `previousHash` equals the
digest of its predecessor. -/
theorem claim_C4_verifyIntegrity (cfg : FraudConfig) (ch : VehicleChain)
    (hr : Reachable cfg ch) :
    (verifyIntegrity ch.blocks).1 = true ∧
    ∀ (j : Nat) (b' : Block) (hj : j < ch.blocks.length),
      oneFieldChanged (ch.blocks.get ⟨j, hj⟩) b' →
      (verifyIntegrity (ch.blocks.set j b')).1 = false ∧
      (verifyIntegrity (ch.blocks.set j b')).2 ≠ [] := by
  have hwf := chainWF_reachable cfg ch hr
  constructor
  · rw [verifyIntegrity_of_wf _ hwf]
  · intro j b' hj hch
    have hb := hwf.1 _ (List.get_mem ch.blocks j hj)
    have hbad := ownHash_broken_of_oneFieldChanged _ _ hb hch
    have hj' : j < (ch.blocks.set j b').length := by simpa using hj
    have hmem : b' ∈ ch.blocks.set j b' := by
      have h1 : (ch.blocks.set j b')[j] = b' := List.getElem_set_self hj'
      exact List.mem_iff_getElem.mpr ⟨j, hj', h1⟩
    have hown : ownErrors (ch.blocks.set j b') ≠ [] := by
      unfold ownErrors
      intro hnil
      rw [List.map_eq_nil_iff] at hnil
      have hmf : b' ∈ List.filter (fun b => b.hash != computeHash b)
          (ch.blocks.set j b') :=
        List.mem_filter.mpr ⟨hmem, by simpa [bne_iff_ne] using hbad⟩
      rw [hnil] at hmf
      cases hmf
    have herr : ownErrors (ch.blocks.set j b') ++
        linkErrors (ch.blocks.set j b') ≠ [] := by
      intro hnil
      exact hown (List.append_eq_nil.mp hnil).1
    constructor
    · show (ownErrors (ch.blocks.set j b') ++
        linkErrors (ch.blocks.set j b')).isEmpty = false
      rw [← Bool.not_eq_true, List.isEmpty_iff]
      exact herr
    · exact herr

/-- Concrete configuration for witnesses (thresholds are configuration
values, spec §9). -/
def cfg0 : FraudConfig :=
  { rejectThreshold := 50, suspendThreshold := 100, maxSpeed := 150,
    hardSpeedCeiling := 1000, hardPenalty := 60, devicePenalty := 20,
    locationPenalty := 5 }

/-- Concrete genesis submission for witnesses. -/
def c0 : Candidate :=
  { odometerKm := 100, imageFingerprint := "imgA", location := "loc",
    deviceFingerprint := "dev", timestamp := 0 }

/-- One-block chain obtained by an accepted genesis reading. -/
def chW : VehicleChain := (addReading cfg0 (createChain "V1") c0 false).2

/-- The genesis block of `chW`. -/
def b0W : Block := mkBlock 0 Hash.zero 0 100 "imgA" "loc" "dev" 0

/-- Block `b0W` with its stored `odometerKm` tampered post-creation. -/
def bW' : Block := { b0W with odometerKm := 999 }

theorem claim_C4_verifyIntegrity_w :
    (verifyIntegrity chW.blocks).1 = true ∧
    ((verifyIntegrity (chW.blocks.set 0 bW')).1 = false ∧
     (verifyIntegrity (chW.blocks.set 0 bW')).2 ≠ []) := by
  have h := claim_C4_verifyIntegrity cfg0 chW
    (Reachable.step _ c0 false (Reachable.created "V1"))
  refine ⟨h.1, h.2 0 bW' (by decide) ?_⟩
  exact Or.inr (Or.inr (Or.inr (Or.inl ⟨999, by decide, by decide⟩)))

/-- C5: once suspended, a chain rejects every subsequent `addReading` with
"chain suspended" and is left unchanged, however clean the submission; no
engine operation ever turns `isActive` back on; and a rejection whose
accumulated score crosses the configured suspension threshold turns
`isActive` off. -/
theorem claim_C5_suspension (cfg : FraudConfig) (ch : VehicleChain)
    (c : Candidate) (crossDup : Bool) :
    (ch.isActive = false →
      (addReading cfg ch c crossDup).1.success = false ∧
      (addReading cfg ch c crossDup).1.fraudAlert = some "chain suspended" ∧
      (addReading cfg ch c crossDup).2 = ch) ∧
    (ch.isActive = false → (addReading cfg ch c crossDup).2.isActive = false) ∧
    (ch.isActive = true →
      (runHeuristics cfg ch c crossDup).verdict = false →
      cfg.suspendThreshold <
        ch.cumulativeFraudScore + (runHeuristics cfg ch c crossDup).score →
      (addReading cfg ch c crossDup).2.isActive = false) := by
  refine ⟨?_, ?_, ?_⟩
  · intro h
    simp [addReading, h]
  · intro h
    simp [addReading, h]
  · intro hact hverdict hcross
    simp only [addReading, hact]
    rw [if_neg (by simp)]
    rw [if_neg (by simp [hverdict])]
    simp [not_le.mpr hcross]

/-- A suspended chain, for the C5 witness. -/
def chS : VehicleChain :=
  { vehicleId := "V1", blocks := [], cumulativeFraudScore := 200,
    isActive := false, lastValidKm := 0 }

theorem claim_C5_suspension_w :
    (addReading cfg0 chS c0 false).1.success = false ∧
    (addReading cfg0 chS c0 false).1.fraudAlert = some "chain suspended" ∧
    (addReading cfg0 chS c0 false).2 = chS :=
  (claim_C5_suspension cfg0 chS c0 false).1 rfl

/-! ## Public-chain and handler lemmas -/

/-- When the global fraud database already holds the reading hash, the
dedup oracle reports it and `registerReading` fails naming the prior
claimant; the database is left unchanged. -/
theorem registerReading_db_found (db : List GlobalFraudEntry) (v : String)
    (km now : Int) (sig : String) (e : GlobalFraudEntry)
    (hg : getGlobalFraudEntry db (createReadingHash v km now sig) = some e) :
    registerReading (fun h => Except.ok (getGlobalFraudEntry db h))
      db v km now sig =
      ({ success := false, txHash := none,
         error := some ("Reading already used by " ++ e.appSource
           ++ " at " ++ toString e.timestamp) }, db) := by
  simp [registerReading, hg, checkExistingReading]

/-- When the reading hash is not yet in the global fraud database,
`registerReading` succeeds, mints a transaction hash and appends the
reading to the database. -/
theorem registerReading_db_none (db : List GlobalFraudEntry) (v : String)
    (km now : Int) (sig : String)
    (hg : getGlobalFraudEntry db (createReadingHash v km now sig) = none) :
    registerReading (fun h => Except.ok (getGlobalFraudEntry db h))
      db v km now sig =
      ({ success := true, txHash := some (mkTxHash v km now), error := none },
       db ++ [mkGlobalEntry v km now sig]) := by
  simp [registerReading, hg, checkExistingReading]

/-- Every non-200 outcome of the upload handler leaves the rewards table
untouched. -/
theorem uploadOdometer_status_or (lv : String → Int → LocalValidation)
    (st : ServerState) (v imgUrl : String) (km now : Int)
    (dfp ihash : String) :
    (uploadOdometer lv st v imgUrl km now dfp ihash).1.status = 200 ∨
    (uploadOdometer lv st v imgUrl km now dfp ihash).2.rewards = st.rewards := by
  unfold uploadOdometer
  split
  · right; rfl
  · dsimp only
    split
    · right; rfl
    · split
      · right; rfl
      · split
        · split
          · right; rfl
          · left; rfl
        · left; rfl

/-- C1: with a registered vehicle whose reward history is non-empty, any
submission with `km` at most the last recorded `km` gets HTTP 400, no
reward row is created and the rewards table is unchanged; when in addition
the cross-app and local-chain checks pass, the message is the
monotonicity rejection. -/
theorem claim_C1_monotonic_reject (lv : String → Int → LocalValidation)
    (st : ServerState) (v imgUrl : String) (km now : Int)
    (dfp ihash : String) (u : User) (r : Reward)
    (hu : findUser st v = some u)
    (hlast : getLastRewardByVehicleNumber st.rewards v = some r)
    (hkm : km ≤ r.km) :
    ((uploadOdometer lv st v imgUrl km now dfp ihash).1.status = 400 ∧
     (uploadOdometer lv st v imgUrl km now dfp ihash).1.reward = none ∧
     (uploadOdometer lv st v imgUrl km now dfp ihash).2.rewards = st.rewards) ∧
    (getGlobalFraudEntry st.globalFraudDB
        (createReadingHash v km now "GreenKarma-v1.0") = none →
     (lv v km).isValid = true →
     (uploadOdometer lv st v imgUrl km now dfp ihash).1.message =
       "Invalid odometer reading. Must be greater than last reading.") := by
  simp only [uploadOdometer, hu]
  rcases Option.eq_none_or_eq_some (getGlobalFraudEntry st.globalFraudDB
      (createReadingHash v km now "GreenKarma-v1.0")) with hg | ⟨e, hg⟩
  · rw [registerReading_db_none _ _ _ _ _ hg]
    rcases Bool.eq_false_or_eq_true ((lv v km).isValid) with hlv | hlv
    · simp only [hlv]
      rw [if_neg (by simp)]
      simp only [hlast]
      rw [if_pos hkm]
      simp
    · simp [hlv]
  · rw [registerReading_db_found _ _ _ _ _ _ hg]
    refine ⟨by simp, ?_⟩
    intro hc
    rw [hc] at hg
    cases hg

/-- Witness fixtures: a registered user, one stored reward of 150 km, the
corresponding server state, and an always-accepting local engine. -/
def u0 : User :=
  { id := 1, name := "Demo User", phone := "+91 9876543210",
    vehicleNumber := "V1", rcImageUrl := none, registeredAt := 0 }

def r0 : Reward :=
  { id := 1, vehicleNumber := "V1", odometerImageUrl := "demo.jpg",
    km := 150, co2Saved := 12, rewardGiven := 24, txHash := none,
    blockHash := none, deviceFingerprint := none, imageHash := none,
    fraudScore := 0, timestamp := 5 }

def st0 : ServerState :=
  { users := [u0], rewards := [r0], nextUserId := 2, nextRewardId := 2,
    globalFraudDB := [], chains := [createChain "V1"] }

def lvOK : String → Int → LocalValidation :=
  fun _ _ => { isValid := true, blockHash := some "bh", fraudAlert := none }

theorem claim_C1_monotonic_reject_w :
    (uploadOdometer lvOK st0 "V1" "img" 140 10 "dev" "ih").1.status = 400 ∧
    (uploadOdometer lvOK st0 "V1" "img" 140 10 "dev" "ih").1.reward = none ∧
    (uploadOdometer lvOK st0 "V1" "img" 140 10 "dev" "ih").2.rewards =
      st0.rewards ∧
    (uploadOdometer lvOK st0 "V1" "img" 140 10 "dev" "ih").1.message =
      "Invalid odometer reading. Must be greater than last reading." := by
  have h := claim_C1_monotonic_reject lvOK st0 "V1" "img" 140 10 "dev" "ih"
    u0 r0 (by decide) (by decide) (by decide)
  exact ⟨h.1.1, h.1.2.1, h.1.2.2, h.2 (by decide) (by decide)⟩

/-- C2: when the exact reading hash is already claimed in the global fraud
database by some entry (in the claimed scenario, one from a different
application), `registerReading` hard-fails with an error naming the prior
app source, and the upload handler rejects with the cross-app fraud
message, flags `crossAppDuplicate`, and creates no reward. -/
theorem claim_C2_cross_app_duplicate (lv : String → Int → LocalValidation)
    (st : ServerState) (v imgUrl : String) (km now : Int)
    (dfp ihash : String) (u : User) (e : GlobalFraudEntry)
    (hu : findUser st v = some u)
    (hdup : getGlobalFraudEntry st.globalFraudDB
      (createReadingHash v km now "GreenKarma-v1.0") = some e)
    (hsrc : e.appSource ≠ "GreenKarma") :
    (registerReading (fun h => Except.ok (getGlobalFraudEntry st.globalFraudDB h))
        st.globalFraudDB v km now "GreenKarma-v1.0").1.success = false ∧
    (registerReading (fun h => Except.ok (getGlobalFraudEntry st.globalFraudDB h))
        st.globalFraudDB v km now "GreenKarma-v1.0").1.error =
      some ("Reading already used by " ++ e.appSource ++ " at "
        ++ toString e.timestamp) ∧
    (uploadOdometer lv st v imgUrl km now dfp ihash).1.status = 400 ∧
    (uploadOdometer lv st v imgUrl km now dfp ihash).1.message =
      "Cross-app fraud detected: " ++ ("Reading already used by "
        ++ e.appSource ++ " at " ++ toString e.timestamp) ∧
    (uploadOdometer lv st v imgUrl km now dfp ihash).1.crossAppDuplicate
      = true ∧
    (uploadOdometer lv st v imgUrl km now dfp ihash).1.reward = none ∧
    (uploadOdometer lv st v imgUrl km now dfp ihash).2.rewards =
      st.rewards := by
  have hreg := registerReading_db_found st.globalFraudDB v km now
    "GreenKarma-v1.0" e hdup
  rw [hreg]
  simp only [uploadOdometer, hu, hreg]
  simp

/-- A reading already claimed by a different application, and the matching
server state, for the C2 witness. -/
def eDup : GlobalFraudEntry :=
  { vehicleNumber := "V1", reading := 160, appSource := "OtherEVApp",
    blockchainTxHash := "0xprior", timestamp := 10,
    readingHash := createReadingHash "V1" 160 10 "GreenKarma-v1.0" }

def stDup : ServerState := { st0 with globalFraudDB := [eDup] }

theorem claim_C2_cross_app_duplicate_w :
    (uploadOdometer lvOK stDup "V1" "img" 160 10 "dev" "ih").1.status = 400 ∧
    (uploadOdometer lvOK stDup "V1" "img" 160 10 "dev" "ih").1.message =
      "Cross-app fraud detected: " ++ ("Reading already used by "
        ++ "OtherEVApp" ++ " at " ++ toString (10 : Int)) ∧
    (uploadOdometer lvOK stDup "V1" "img" 160 10 "dev" "ih").1.reward =
      none := by
  have h := claim_C2_cross_app_duplicate lvOK stDup "V1" "img" 160 10 "dev"
    "ih" u0 eDup (by decide) (by decide) (by decide)
  exact ⟨h.2.2.1, h.2.2.2.1, h.2.2.2.2.2.1⟩

/-- The always-failing storage lookup: the dedup oracle is unreachable. -/
def failingLookup : ReadingHash → Except String (Option GlobalFraudEntry) :=
  fun _ => Except.error "oracle unreachable"

/-- C3 counterexample: with the lookup failing, `registerReading` does not
fail with a "validation unavailable" reason — it succeeds (no error at
all) and registers the reading, i.e. the submission is silently accepted
as if no duplicate existed. -/
theorem claim_C3_cex :
    (registerReading failingLookup [] "MH01AB1234" 150 0
      "GreenKarma-v1.0").1.success = true ∧
    (registerReading failingLookup [] "MH01AB1234" 150 0
      "GreenKarma-v1.0").1.error = none ∧
    (registerReading failingLookup [] "MH01AB1234" 150 0
      "GreenKarma-v1.0").2 ≠ [] := by
  refine ⟨rfl, rfl, ?_⟩
  intro h
  cases h

/-- C3 (amended): when the cross-app duplicate lookup itself fails,
`checkExistingReading` swallows the error and reports no duplicate, and
`registerReading` proceeds exactly as if no duplicate existed: the
submission succeeds and the reading is registered in the global database;
no distinct "validation unavailable, retry later" failure exists. -/
theorem claim_C3_lookup_failure_accepted
    (q : ReadingHash → Except String (Option GlobalFraudEntry))
    (db : List GlobalFraudEntry) (v : String) (km now : Int)
    (sig msg : String)
    (hq : q (createReadingHash v km now sig) = Except.error msg) :
    checkExistingReading (q (createReadingHash v km now sig)) =
      { exists_ := false, appSource := none, timestamp := none } ∧
    (registerReading q db v km now sig).1 =
      { success := true, txHash := some (mkTxHash v km now),
        error := none } ∧
    (registerReading q db v km now sig).2 =
      db ++ [mkGlobalEntry v km now sig] := by
  have h1 : checkExistingReading (q (createReadingHash v km now sig)) =
      { exists_ := false, appSource := none, timestamp := none } := by
    rw [hq]
    rfl
  refine ⟨h1, ?_, ?_⟩ <;> simp [registerReading, h1]

theorem claim_C3_lookup_failure_accepted_w :
    checkExistingReading (failingLookup
        (createReadingHash "MH01" 150 0 "GreenKarma-v1.0")) =
      { exists_ := false, appSource := none, timestamp := none } ∧
    (registerReading failingLookup [] "MH01" 150 0 "GreenKarma-v1.0").1 =
      { success := true, txHash := some (mkTxHash "MH01" 150 0),
        error := none } ∧
    (registerReading failingLookup [] "MH01" 150 0 "GreenKarma-v1.0").2 =
      [] ++ [mkGlobalEntry "MH01" 150 0 "GreenKarma-v1.0"] :=
  claim_C3_lookup_failure_accepted failingLookup [] "MH01" 150 0
    "GreenKarma-v1.0" "oracle unreachable" rfl

/-- C6: on a vehicle with no prior recorded reward, a submission passing
the image/cross-app and local checks is accepted whatever its `km` value,
and the credited amounts come from the default 100 km distance:
`co2Saved = 100 * 0.12 = 12` and `rewardGiven = 24`, independent of the
submitted `km`. -/
theorem claim_C6_genesis_default_distance
    (lv : String → Int → LocalValidation) (st : ServerState)
    (v imgUrl : String) (km now : Int) (dfp ihash : String) (u : User)
    (hu : findUser st v = some u)
    (hnone : getLastRewardByVehicleNumber st.rewards v = none)
    (hcross : getGlobalFraudEntry st.globalFraudDB
      (createReadingHash v km now "GreenKarma-v1.0") = none)
    (hlv : (lv v km).isValid = true) :
    (uploadOdometer lv st v imgUrl km now dfp ihash).1.status = 200 ∧
    ∃ rw, (uploadOdometer lv st v imgUrl km now dfp ihash).1.reward =
        some rw ∧
      (uploadOdometer lv st v imgUrl km now dfp ihash).2.rewards =
        st.rewards ++ [rw] ∧
      rw.km = km ∧ rw.co2Saved = 12 ∧ rw.rewardGiven = 24 := by
  simp only [uploadOdometer, hu]
  rw [registerReading_db_none _ _ _ _ _ hcross]
  simp only [hlv]
  rw [if_neg (by simp)]
  simp only [hnone]
  refine ⟨rfl, _, rfl, rfl, rfl, ?_, ?_⟩ <;> norm_num

/-- Server state with a registered vehicle and an empty reward history,
for the C6 witness. -/
def stFresh : ServerState :=
  { users := [u0], rewards := [], nextUserId := 2, nextRewardId := 1,
    globalFraudDB := [], chains := [createChain "V1"] }

theorem claim_C6_genesis_default_distance_w :
    (uploadOdometer lvOK stFresh "V1" "img" 98765 10 "dev" "ih").1.status
      = 200 ∧
    ∃ rw, (uploadOdometer lvOK stFresh "V1" "img" 98765 10 "dev" "ih").1.reward
        = some rw ∧
      (uploadOdometer lvOK stFresh "V1" "img" 98765 10 "dev" "ih").2.rewards
        = stFresh.rewards ++ [rw] ∧
      rw.km = 98765 ∧ rw.co2Saved = 12 ∧ rw.rewardGiven = 24 :=
  claim_C6_genesis_default_distance lvOK stFresh "V1" "img" 98765 10 "dev"
    "ih" u0 (by decide) (by decide) (by decide) (by decide)

/-- C7: an accepted submission with a prior recorded reading persists
exactly one new reward whose `co2Saved` is `0.12` times the km difference
and whose `rewardGiven` is twice `co2Saved`; and (second conjunct) a reward
row is persisted only when the submission passes every check, i.e. every
non-200 outcome leaves the rewards table unchanged. -/
theorem claim_C7_reward_proportional (lv : String → Int → LocalValidation)
    (st : ServerState) (v imgUrl : String) (km now : Int)
    (dfp ihash : String) (u : User) (r : Reward)
    (hu : findUser st v = some u)
    (hlast : getLastRewardByVehicleNumber st.rewards v = some r)
    (hkm : r.km < km)
    (hcross : getGlobalFraudEntry st.globalFraudDB
      (createReadingHash v km now "GreenKarma-v1.0") = none)
    (hlv : (lv v km).isValid = true) :
    ((uploadOdometer lv st v imgUrl km now dfp ihash).1.status = 200 ∧
     ∃ rw, (uploadOdometer lv st v imgUrl km now dfp ihash).1.reward =
         some rw ∧
       (uploadOdometer lv st v imgUrl km now dfp ihash).2.rewards =
         st.rewards ++ [rw] ∧
       rw.co2Saved = ((km - r.km : Int) : ℚ) * (12 / 100) ∧
       rw.rewardGiven = 2 * rw.co2Saved) ∧
    (∀ (lv' : String → Int → LocalValidation) (st' : ServerState)
       (v' i' : String) (km' now' : Int) (d' h' : String),
      (uploadOdometer lv' st' v' i' km' now' d' h').1.status ≠ 200 →
      (uploadOdometer lv' st' v' i' km' now' d' h').2.rewards =
        st'.rewards) := by
  constructor
  · simp only [uploadOdometer, hu]
    rw [registerReading_db_none _ _ _ _ _ hcross]
    simp only [hlv]
    rw [if_neg (by simp)]
    simp only [hlast]
    rw [if_neg (not_le.mpr hkm)]
    exact ⟨rfl, _, rfl, rfl, rfl, by ring⟩
  · intro lv' st' v' i' km' now' d' h' hne
    exact (uploadOdometer_status_or lv' st' v' i' km' now' d' h').resolve_left
      hne

theorem claim_C7_reward_proportional_w :
    (uploadOdometer lvOK st0 "V1" "img" 175 10 "dev" "ih").1.status = 200 ∧
    ∃ rw, (uploadOdometer lvOK st0 "V1" "img" 175 10 "dev" "ih").1.reward =
        some rw ∧
      (uploadOdometer lvOK st0 "V1" "img" 175 10 "dev" "ih").2.rewards =
        st0.rewards ++ [rw] ∧
      rw.co2Saved = ((175 - r0.km : Int) : ℚ) * (12 / 100) ∧
      rw.rewardGiven = 2 * rw.co2Saved :=
  (claim_C7_reward_proportional lvOK st0 "V1" "img" 175 10 "dev" "ih" u0 r0
    (by decide) (by decide) (by decide) (by decide) (by decide)).1

/-- C8: registering a vehicle number that already has a user row fails
with the duplicate-registration message, creates no user, and leaves the
whole server state — user rows and chains included — unchanged, so no
second chain is ever created for the vehicle. -/
theorem claim_C8_duplicate_registration (st : ServerState)
    (name phone v : String) (rc : Option String) (now : Int) (u : User)
    (hu : findUser st v = some u) :
    (registerUser st name phone v rc now).1.status = 400 ∧
    (registerUser st name phone v rc now).1.message =
      "Vehicle number already registered" ∧
    (registerUser st name phone v rc now).1.user = none ∧
    (registerUser st name phone v rc now).2 = st ∧
    (registerUser st name phone v rc now).2.chains = st.chains ∧
    (registerUser st name phone v rc now).2.users = st.users := by
  simp [registerUser, hu]

theorem claim_C8_duplicate_registration_w :
    (registerUser st0 "Mallory" "+91 0" "V1" none 99).1.status = 400 ∧
    (registerUser st0 "Mallory" "+91 0" "V1" none 99).1.message =
      "Vehicle number already registered" ∧
    (registerUser st0 "Mallory" "+91 0" "V1" none 99).2 = st0 := by
  have h := claim_C8_duplicate_registration st0 "Mallory" "+91 0" "V1" none
    99 u0 (by decide)
  exact ⟨h.1, h.2.1, h.2.2.2.1⟩

/-- C9: once the cross-app check passes, the reading is recorded in the
global fraud database with its minted transaction hash — whatever the
local verdict and the monotonicity check later decide — and a subsequent
rejection (e.g. a failing local validation) returns 400 without removing
the entry: the appended-database equation holds for every `lv`. -/
theorem claim_C9_global_registration_persists
    (lv : String → Int → LocalValidation) (st : ServerState)
    (v imgUrl : String) (km now : Int) (dfp ihash : String) (u : User)
    (hu : findUser st v = some u)
    (hcross : getGlobalFraudEntry st.globalFraudDB
      (createReadingHash v km now "GreenKarma-v1.0") = none) :
    (registerReading (fun h => Except.ok (getGlobalFraudEntry st.globalFraudDB h))
        st.globalFraudDB v km now "GreenKarma-v1.0").1.txHash =
      some (mkTxHash v km now) ∧
    (uploadOdometer lv st v imgUrl km now dfp ihash).2.globalFraudDB =
      st.globalFraudDB ++ [mkGlobalEntry v km now "GreenKarma-v1.0"] ∧
    ((lv v km).isValid = false →
      (uploadOdometer lv st v imgUrl km now dfp ihash).1.status = 400 ∧
      (uploadOdometer lv st v imgUrl km now dfp ihash).2.rewards =
        st.rewards) := by
  have hreg := registerReading_db_none st.globalFraudDB v km now
    "GreenKarma-v1.0" hcross
  refine ⟨by rw [hreg], ?_, ?_⟩
  · simp only [uploadOdometer, hu, hreg]
    rcases Bool.eq_false_or_eq_true ((lv v km).isValid) with hlv | hlv
    · simp only [hlv]
      rw [if_neg (by simp)]
      rcases Option.eq_none_or_eq_some
          (getLastRewardByVehicleNumber st.rewards v) with hl | ⟨rr, hl⟩
      · simp [hl]
      · simp only [hl]
        rcases le_or_lt km rr.km with hk | hk
        · rw [if_pos hk]
          simp
        · rw [if_neg (not_le.mpr hk)]
          simp
    · simp [hlv]
  · intro hlv
    simp [uploadOdometer, hu, hreg, hlv]

/-- A local engine that rejects everything, for the C9 witness. -/
def lvBad : String → Int → LocalValidation :=
  fun _ _ => { isValid := false, blockHash := none,
               fraudAlert := some "suspicious" }

theorem claim_C9_global_registration_persists_w :
    (uploadOdometer lvBad st0 "V1" "img" 170 10 "dev" "ih").2.globalFraudDB =
      st0.globalFraudDB ++ [mkGlobalEntry "V1" 170 10 "GreenKarma-v1.0"] ∧
    (uploadOdometer lvBad st0 "V1" "img" 170 10 "dev" "ih").1.status = 400 ∧
    (uploadOdometer lvBad st0 "V1" "img" 170 10 "dev" "ih").2.rewards =
      st0.rewards := by
  have h := claim_C9_global_registration_persists lvBad st0 "V1" "img" 170
    10 "dev" "ih" u0 (by decide) (by decide)
  exact ⟨h.2.1, (h.2.2 (by decide)).1, (h.2.2 (by decide)).2⟩

/-! ## Storage-refinement lemmas (C10) -/

theorem insertByTimestampDesc_perm (x : Reward) (l : List Reward) :
    List.Perm (insertByTimestampDesc x l) (x :: l) := by
  induction l with
  | nil => exact List.Perm.refl _
  | cons y ys ih =>
      unfold insertByTimestampDesc
      split
      · exact List.Perm.refl _
      · exact List.Perm.trans (List.Perm.cons y ih) (List.Perm.swap x y ys)

theorem sortByTimestampDesc_perm (l : List Reward) :
    List.Perm (sortByTimestampDesc l) l := by
  induction l with
  | nil => exact List.Perm.refl _
  | cons x xs ih =>
      exact List.Perm.trans (insertByTimestampDesc_perm x _)
        (List.Perm.cons x ih)

/-- Sorting newest-first does not change any mapped sum. -/
theorem sum_map_sortByTimestampDesc (f : Reward → ℚ) (l : List Reward) :
    ((sortByTimestampDesc l).map f).sum = (l.map f).sum :=
  ((sortByTimestampDesc_perm l).map f).sum_eq

/-- C10 counterexample: on the identical single-reward collection the two
implementations disagree — `MemStorage` reports the stored reward's 150 km
as `totalDistance`, `DatabaseStorage` reports 0 (its loop over consecutive
pairs is empty); the overall results differ. -/
theorem claim_C10_cex :
    (memGetTotalRewards [r0] "V1" 0).totalDistance = 150 ∧
    (dbGetTotalRewards [r0] "V1" (fun t => decide (0 ≤ t))).totalDistance
      = 0 ∧
    memGetTotalRewards [r0] "V1" 0 ≠
      dbGetTotalRewards [r0] "V1" (fun t => decide (0 ≤ t)) := by
  refine ⟨rfl, rfl, ?_⟩
  intro h
  have h2 := congrArg Totals.totalDistance h
  simp [memGetTotalRewards, dbGetTotalRewards, rewardsByVehicleDesc,
    sortByTimestampDesc, insertByTimestampDesc, sortByTimestampAsc,
    insertByTimestampAsc, posIncrements, r0] at h2

/-- C10 (amended): on every identical reward collection the two
`getTotalRewardsByVehicleNumber` implementations agree on `totalBalance`
and `totalCo2Saved`, but not in general on `totalDistance`: `MemStorage`
returns the `km` of the newest reward (0 when there is none) while
`DatabaseStorage` returns the sum of the positive consecutive km
increments in timestamp order. -/
theorem claim_C10_totals_partial_agreement (rewards : List Reward)
    (v : String) (monthStart : Int) (inCurrentMonth : Int → Bool) :
    (memGetTotalRewards rewards v monthStart).totalBalance =
      (dbGetTotalRewards rewards v inCurrentMonth).totalBalance ∧
    (memGetTotalRewards rewards v monthStart).totalCo2Saved =
      (dbGetTotalRewards rewards v inCurrentMonth).totalCo2Saved ∧
    (memGetTotalRewards rewards v monthStart).totalDistance =
      (match (rewardsByVehicleDesc rewards v).head? with
       | some r => r.km
       | none => 0) ∧
    (dbGetTotalRewards rewards v inCurrentMonth).totalDistance =
      posIncrements (sortByTimestampAsc
        (rewards.filter (fun r => r.vehicleNumber == v))) := by
  refine ⟨?_, ?_, rfl, rfl⟩
  · exact sum_map_sortByTimestampDesc (fun r => r.rewardGiven) _
  · exact sum_map_sortByTimestampDesc (fun r => r.co2Saved) _

end GreenKarma
